import Mathlib

/-!
# ORIENTATION_MPU — verification of the buffer-governance and
# latest-sample-selection pipeline of `src/realtime_imu.py`

A shallow embedding of the core of `RealTimeIMU`: the drain-and-keep-newest
loop of `read_latest_serial_data` (STEP 2), its packet parsing and state
update (STEP 3), the periodic governance check (STEP 1), the flush primitive
`clear_serial_buffer`, the freshness classification of `draw_realtime_cube`,
the per-tick dispatch of `update_plot`, `init_serial`, and the key handler
`on_key_press`.

Conventions of the embedding:
* Python floats are modelled as rationals (`ℚ`); the model of the builtin
  `float(...)` conversion covers the decimal-literal subset of its grammar
  (optional sign, digits, optional decimal point) that the comma-separated
  wire format uses.
* The serial channel is modelled as the list of pending lines, each
  `Option String`: `some s` is a line that decodes to `s`, `none` is a line on
  which `readline`/`decode` raises (the drain loop's inner `except: break`).
* Wall-clock times are rationals passed explicitly.
-/

namespace OrientationMPU

/-! ## Python string primitives used by the source -/

/-- Python's `str.strip()` on the whitespace the wire format can carry. -/
def pyIsSpace (c : Char) : Bool :=
  c = ' ' || c = '\t' || c = '\n' || c = '\r' || c = '\x0b' || c = '\x0c'

/-- `line.strip()` (line 156 of the source): drop whitespace at both ends. -/
def pyStrip (s : String) : String :=
  String.mk (((s.data.dropWhile pyIsSpace).reverse.dropWhile pyIsSpace).reverse)

/-- Helper for `pySplitComma`: `acc` holds the current field reversed. -/
def splitCommaAux : List Char → List Char → List String
  | [], acc => [String.mk acc.reverse]
  | c :: rest, acc =>
      if c = ',' then String.mk acc.reverse :: splitCommaAux rest []
      else splitCommaAux rest (c :: acc)

/-- Python's `latest_data.split(',')` (line 170): split on every comma,
keeping empty fields. -/
def pySplitComma (s : String) : List String :=
  splitCommaAux s.data []

/-- Numeric value of a decimal digit character. -/
def digitVal (c : Char) : Nat := c.toNat - 48

/-- Value of a digit string read left to right. -/
def digitsVal (l : List Char) : Nat :=
  l.foldl (fun a c => 10 * a + digitVal c) 0

/-- Optional sign at the front of a numeric literal. -/
def parseSign : List Char → ℚ × List Char
  | '-' :: rest => (-1, rest)
  | '+' :: rest => (1, rest)
  | l => (1, l)

/-- Split at the first `'.'`: (integer part, fractional part when a dot
is present).  A second dot is left inside the fractional part, where the
all-digits check rejects it. -/
def breakDot : List Char → List Char × Option (List Char)
  | [] => ([], none)
  | c :: rest =>
      if c = '.' then ([], some rest)
      else
        let r := breakDot rest
        (c :: r.1, r.2)

/-- Python's builtin `float(s)` (lines 174–176) on the decimal-literal subset
of its grammar: surrounding whitespace stripped, optional sign, digits with an
optional decimal point.  `none` models the `ValueError` branch. -/
def parseFloatQ (s : String) : Option ℚ :=
  let cs0 := (pyStrip s).data
  let p := parseSign cs0
  let bd := breakDot p.2
  match bd.2 with
  | none =>
      if !bd.1.isEmpty && bd.1.all Char.isDigit then
        some (p.1 * (digitsVal bd.1 : ℚ))
      else none
  | some fp =>
      if (!bd.1.isEmpty || !fp.isEmpty) && bd.1.all Char.isDigit
          && fp.all Char.isDigit then
        some (p.1 * ((digitsVal bd.1 : ℚ) + (digitsVal fp : ℚ) / 10 ^ fp.length))
      else none

/-! ## The process state (the mutable fields of `RealTimeIMU`) -/

/-- The fields of `RealTimeIMU` the core pipeline reads or writes.
`serial_port` is the presence of the port object (`self.serial_port is not
None`); the channel's own contents travel separately as the pending-line
list. -/
structure SysState where
  rotX : ℚ
  rotY : ℚ
  rotZ : ℚ
  demo_mode : Bool
  demo_time : ℚ
  serial_port : Bool
  serial_connected : Bool
  last_buffer_clear : ℚ
  data_count : Nat
  last_data_time : ℚ
  deriving Repr, DecidableEq

/-- `buffer_clear_interval = 0.05` (line 37). -/
def buffer_clear_interval : ℚ := 1 / 20

/-- `max_buffer_size = 100` (line 39). -/
def max_buffer_size : Nat := 100

/-- Display label of line 277: `Roll = self.rotX`. -/
def roll (st : SysState) : ℚ := st.rotX

/-- Display label of line 277: `Pitch = self.rotY`. -/
def pitch (st : SysState) : ℚ := st.rotY

/-- Display label of line 277: `Yaw = self.rotZ`. -/
def yaw (st : SysState) : ℚ := st.rotZ

/-! ## STEP 2 — the drain-and-keep-newest loop (lines 151–163) -/

/-- The drain loop body: `while in_waiting > 0: line = readline().decode
().strip(); if line: (count a replacement, keep the line)`, with the inner
`except: break` on a line that fails to read or decode (`none`). -/
def drainLoop : List (Option String) → Option String → Nat → Option String × Nat
  | [], cand, cnt => (cand, cnt)
  | none :: _, cand, cnt => (cand, cnt)
  | some raw :: rest, cand, cnt =>
      if pyStrip raw = "" then drainLoop rest cand cnt
      else
        match cand with
        | none => drainLoop rest (some (pyStrip raw)) cnt
        | some _ => drainLoop rest (some (pyStrip raw)) (cnt + 1)

/-- STEP 2 of `read_latest_serial_data`: drain every pending line, return
`(latest_data, packets_discarded)`. -/
def read_latest_drain (pending : List (Option String)) : Option String × Nat :=
  drainLoop pending none 0

/-! ## STEP 3 — parse and immediate assignment (lines 166–189) -/

/-- STEP 3 of `read_latest_serial_data`: split the kept line on commas and,
when at least 3 fields result, convert and assign them one at a time exactly
as the source does — `self.rotY = float(values[0])` runs before
`float(values[1])` is attempted, so a `ValueError` on a later field leaves
the earlier assignments in place (the `except ValueError` of line 187 only
stops the remaining ones).  Returns the state and the function's
`True`/`False` result. -/
def processLatest (st : SysState) (current_time : ℚ) (latest : String) :
    SysState × Bool :=
  let values := pySplitComma latest
  if values.length ≥ 3 then
    match parseFloatQ (values.getD 0 "") with
    | none => (st, false)
    | some v0 =>
        let st1 := { st with rotY := v0 }
        match parseFloatQ (values.getD 1 "") with
        | none => (st1, false)
        | some v1 =>
            let st2 := { st1 with rotX := v1 }
            match parseFloatQ (values.getD 2 "") with
            | none => (st2, false)
            | some v2 =>
                ({ st2 with
                    rotZ := v2
                    data_count := st2.data_count + 1
                    last_data_time := current_time }, true)
  else (st, false)

/-! ## STEP 1 — the periodic governance check (lines 142–148) -/

/-- Lines 142–148 of `read_latest_serial_data`: when
`now - last_buffer_clear > buffer_clear_interval`, look at the pending byte
count (flush when it exceeds `max_buffer_size`) and set
`last_buffer_clear := now`; otherwise do nothing.  Returns
`(new last_buffer_clear, whether the threshold check ran, whether a flush
was triggered)`. -/
def maybeGovern (last_buffer_clear now : ℚ) (pendingBytes : Nat) :
    ℚ × Bool × Bool :=
  if now - last_buffer_clear > buffer_clear_interval then
    (now, true, decide (pendingBytes > max_buffer_size))
  else (last_buffer_clear, false, false)

/-- Bytes one pending line holds: its characters plus the line terminator;
a line that will fail to decode still occupies at least one byte. -/
def lineBytes : Option String → Nat
  | some s => s.length + 1
  | none => 1

/-- The channel's `in_waiting` byte count for a pending-line list. -/
def in_waiting (pending : List (Option String)) : Nat :=
  (pending.map lineBytes).sum

/-! ## The flush primitive `clear_serial_buffer` (lines 105–131) -/

/-- The serial channel: its configured read timeout and its pending lines. -/
structure Channel where
  timeout : ℚ
  pending : List (Option String)
  deriving Repr, DecidableEq

/-- The drain loop of `clear_serial_buffer` (lines 118–123):
`while in_waiting > 0: readline(); discarded_count += 1;
if discarded_count > 50: break`.  Returns the remaining pending lines and
the final `discarded_count`. -/
def clear_drain : List (Option String) → Nat → List (Option String) × Nat
  | [], c => ([], c)
  | _ :: rest, c =>
      let c2 := c + 1
      if c2 > 50 then (rest, c2) else clear_drain rest c2

/-- `clear_serial_buffer` for a present port (lines 105–131): reset the input
buffer (`resetEffective` is whether the transport's reset actually clears
the backlog — the source treats it as possibly only advisory and drains
afterwards), save the timeout, set the very short 0.001 drain timeout, run
the drain loop, restore the saved timeout.  Returns the channel and the
number of discarded lines. -/
def clear_serial_buffer_m (resetEffective : Bool) (ch : Channel) :
    Channel × Nat :=
  let old_timeout := ch.timeout
  let ch1 : Channel := { ch with pending := if resetEffective then [] else ch.pending }
  let ch2 : Channel := { ch1 with timeout := 1 / 1000 }
  let r := clear_drain ch2.pending 0
  let ch3 : Channel := { ch2 with pending := r.1 }
  let ch4 : Channel := { ch3 with timeout := old_timeout }
  (ch4, r.2)

/-! ## `read_latest_serial_data` as a whole (lines 133–194) -/

/-- One call of `read_latest_serial_data`: the guard of line 135, STEP 1's
governance (a triggered flush empties the channel's backlog before the
drain), STEP 2's drain, and STEP 3's parse-and-assign.  `now` is
`time.time()` at line 139; `pending` is the channel's backlog when the call
starts.  Returns the state and the function's boolean result. -/
def read_latest_serial_data_m (st : SysState) (now : ℚ)
    (pending : List (Option String)) : SysState × Bool :=
  if st.serial_connected = false ∨ st.serial_port = false then (st, false)
  else
    let g := maybeGovern st.last_buffer_clear now (in_waiting pending)
    let st1 := { st with last_buffer_clear := g.1 }
    let pending1 := if g.2.2 then [] else pending
    let r := read_latest_drain pending1
    match r.1 with
    | none => (st1, false)
    | some line => processLatest st1 now line

/-! ## Freshness classification (lines 275–276 of `draw_realtime_cube`) -/

/-- The tri-level freshness indicator of the plot title. -/
inductive Freshness where
  | LIVE
  | STALE
  | OLD
  deriving Repr, DecidableEq

/-- Line 275: `data_age = time.time() - self.last_data_time if
self.last_data_time > 0 else 0`. -/
def data_age (now last_data_time : ℚ) : ℚ :=
  if last_data_time > 0 then now - last_data_time else 0

/-- Line 276: `"LIVE" if data_age < 0.5 else "STALE" if data_age < 2 else
"OLD"`. -/
def classify (now last_data_time : ℚ) : Freshness :=
  if data_age now last_data_time < 1 / 2 then Freshness.LIVE
  else if data_age now last_data_time < 2 then Freshness.STALE
  else Freshness.OLD

/-! ## The mode controller: `init_serial`, `update_plot`, `on_key_press` -/

/-- `init_serial` (lines 69–103) on a fresh state: when the port opens,
store it and mark connected; when opening raises, leave the port unset,
mark not connected and turn demo mode on (lines 100–103).  The exception
is consumed there — the function always returns. -/
def init_serial_m (st : SysState) (openOk : Bool) : SysState :=
  if openOk then { st with serial_port := true, serial_connected := true }
  else { st with serial_connected := false, demo_mode := true }

/-- `update_demo` (lines 196–201): advance `demo_time` by 0.02 and set the
three angles from the deterministic demo signal.  The sinusoidal signal
itself is outside the core (§1 of the spec), so it enters as the parameter
`sig`. -/
def update_demo_m (sig : ℚ → ℚ × ℚ × ℚ) (st : SysState) : SysState :=
  let t := st.demo_time + 1 / 50
  { st with
      demo_time := t
      rotX := (sig t).1
      rotY := (sig t).2.1
      rotZ := (sig t).2.2 }

/-- One tick of `update_plot` (lines 328–338), the state-mutating part:
live mode (`serial_connected and not demo_mode`) tries
`read_latest_serial_data` and, on a `False` result, keeps the current
values; otherwise the demo signal runs. -/
def update_plot_m (sig : ℚ → ℚ × ℚ × ℚ) (st : SysState) (now : ℚ)
    (pending : List (Option String)) : SysState :=
  if st.serial_connected && !st.demo_mode then
    (read_latest_serial_data_m st now pending).1
  else update_demo_m sig st

/-- A run of consecutive ticks, each with its own wall-clock time and
channel backlog. -/
def run_ticks (sig : ℚ → ℚ × ℚ × ℚ) (st : SysState) :
    List (ℚ × List (Option String)) → SysState
  | [] => st
  | tick :: rest => run_ticks sig (update_plot_m sig st tick.1 tick.2) rest

/-- `n` ticks of the demo path alone. -/
def run_demo (sig : ℚ → ℚ × ℚ × ℚ) (st : SysState) : Nat → SysState
  | 0 => st
  | n + 1 => run_demo sig (update_demo_m sig st) n

/-- The keys `on_key_press` distinguishes (lines 344–368). -/
inductive Key where
  | r
  | d
  | b
  | escape
  | other
  deriving Repr, DecidableEq

/-- `on_key_press` (lines 344–368), the state-mutating part: `r` zeroes the
three angles, `d` toggles demo mode, `b` runs `clear_serial_buffer` when
`self.serial_port` is set — the guard of line 363 tests the port, not the
mode.  Returns the state and whether `clear_serial_buffer` was invoked. -/
def on_key_press_m (st : SysState) (k : Key) : SysState × Bool :=
  match k with
  | Key.r => ({ st with rotX := 0, rotY := 0, rotZ := 0 }, false)
  | Key.d => ({ st with demo_mode := !st.demo_mode }, false)
  | Key.b => (st, st.serial_port)
  | Key.escape => (st, false)
  | Key.other => (st, false)

/-! ## Concrete states used by the scenario theorems -/

/-- The initial orientation state after a successful connection: all angles
zero, port open, connected, live mode, no sample accepted yet (the field
initialisations of lines 24–43 plus the successful branch of
`init_serial`). -/
def st_zero : SysState :=
  { rotX := 0, rotY := 0, rotZ := 0, demo_mode := false, demo_time := 0,
    serial_port := true, serial_connected := true, last_buffer_clear := 0,
    data_count := 0, last_data_time := 0 }

/-- A live-mode state identical to `st_zero`; kept separate so the
live-tick scenario has its own starting point. -/
def st_live : SysState :=
  { rotX := 0, rotY := 0, rotZ := 0, demo_mode := false, demo_time := 0,
    serial_port := true, serial_connected := true, last_buffer_clear := 0,
    data_count := 0, last_data_time := 0 }

/-- A state in demo (simulated) mode with an open serial port: reachable by
connecting successfully and then toggling demo mode with the `d` key. -/
def st_demo_with_port : SysState :=
  { rotX := 0, rotY := 0, rotZ := 0, demo_mode := true, demo_time := 0,
    serial_port := true, serial_connected := true, last_buffer_clear := 0,
    data_count := 0, last_data_time := 0 }

/-! # Theorems

## Concrete evaluations of the float conversion -/

theorem parseFloatQ_one : parseFloatQ "1.0" = some 1 := by
  show some ((1 : ℚ) * ((digitsVal ['1'] : ℚ) + (digitsVal ['0'] : ℚ) / 10 ^ (['0'] : List Char).length)) = some 1
  rw [show digitsVal ['1'] = 1 from by decide, show digitsVal ['0'] = 0 from by decide]
  norm_num

theorem parseFloatQ_four : parseFloatQ "4.0" = some 4 := by
  show some ((1 : ℚ) * ((digitsVal ['4'] : ℚ) + (digitsVal ['0'] : ℚ) / 10 ^ (['0'] : List Char).length)) = some 4
  rw [show digitsVal ['4'] = 4 from by decide, show digitsVal ['0'] = 0 from by decide]
  norm_num

theorem parseFloatQ_five : parseFloatQ "5.0" = some 5 := by
  show some ((1 : ℚ) * ((digitsVal ['5'] : ℚ) + (digitsVal ['0'] : ℚ) / 10 ^ (['0'] : List Char).length)) = some 5
  rw [show digitsVal ['5'] = 5 from by decide, show digitsVal ['0'] = 0 from by decide]
  norm_num

theorem parseFloatQ_six : parseFloatQ "6.0" = some 6 := by
  show some ((1 : ℚ) * ((digitsVal ['6'] : ℚ) + (digitsVal ['0'] : ℚ) / 10 ^ (['0'] : List Char).length)) = some 6
  rw [show digitsVal ['6'] = 6 from by decide, show digitsVal ['0'] = 0 from by decide]
  norm_num

theorem parseFloatQ_abc : parseFloatQ "abc" = none := by decide

/-! ## Evaluating the parse step on whole packets -/

theorem processLatest_456 (st : SysState) (t : ℚ) :
    processLatest st t "4.0,5.0,6.0" =
      ({ st with
          rotX := 5
          rotY := 4
          rotZ := 6
          data_count := st.data_count + 1
          last_data_time := t }, true) := by
  have hs : pySplitComma "4.0,5.0,6.0" = ["4.0", "5.0", "6.0"] := by decide
  simp [processLatest, hs, List.getD, parseFloatQ_four, parseFloatQ_five, parseFloatQ_six]

theorem processLatest_1abc2 (st : SysState) (t : ℚ) :
    processLatest st t "1.0,abc,2.0" = ({ st with rotY := 1 }, false) := by
  have hs : pySplitComma "1.0,abc,2.0" = ["1.0", "abc", "2.0"] := by decide
  simp [processLatest, hs, List.getD, parseFloatQ_one, parseFloatQ_abc]

/-! ## The drain loop keeps the last non-empty line -/

theorem drainLoop_some_acc (L : List String) :
    ∀ (hall : ∀ l ∈ L, pyStrip l ≠ ""), L ≠ [] → ∀ (c : String) (k : Nat),
      drainLoop (L.map some) (some c) k = (L.getLast?.map pyStrip, k + L.length) := by
  induction L with
  | nil => intro _ h; exact absurd rfl h
  | cons x rest ih =>
    intro hall _ c k
    have hx : pyStrip x ≠ "" := hall x (List.mem_cons_self x rest)
    rcases rest with _ | ⟨y, rest2⟩
    · simp [drainLoop, hx]
    · have hall2 : ∀ l ∈ y :: rest2, pyStrip l ≠ "" :=
        fun l hl => hall l (List.mem_cons_of_mem x hl)
      have step : drainLoop ((x :: y :: rest2).map some) (some c) k =
          drainLoop ((y :: rest2).map some) (some (pyStrip x)) (k + 1) := by
        simp [drainLoop, hx]
      rw [step, ih hall2 (List.cons_ne_nil y rest2) (pyStrip x) (k + 1),
        List.getLast?_cons_cons]
      simp
      omega

theorem drainLoop_none_acc (L : List String) (hall : ∀ l ∈ L, pyStrip l ≠ "")
    (hne : L ≠ []) (k : Nat) :
    drainLoop (L.map some) none k = (L.getLast?.map pyStrip, k + L.length - 1) := by
  rcases L with _ | ⟨x, rest⟩
  · exact absurd rfl hne
  · have hx : pyStrip x ≠ "" := hall x (List.mem_cons_self x rest)
    have step : drainLoop ((x :: rest).map some) none k =
        drainLoop (rest.map some) (some (pyStrip x)) k := by
      simp [drainLoop, hx]
    rcases rest with _ | ⟨y, rest2⟩
    · simp [step, drainLoop, hx]
    · have hall2 : ∀ l ∈ y :: rest2, pyStrip l ≠ "" :=
        fun l hl => hall l (List.mem_cons_of_mem x hl)
      rw [step, drainLoop_some_acc _ hall2 (List.cons_ne_nil y rest2) (pyStrip x) k,
        List.getLast?_cons_cons]
      simp

theorem drainLoop_filter (M : List String) :
    ∀ (c : Option String) (k : Nat),
      drainLoop (M.map some) c k =
        drainLoop ((M.filter fun l => pyStrip l != "").map some) c k := by
  induction M with
  | nil => intro c k; rfl
  | cons x rest ih =>
    intro c k
    by_cases hx : pyStrip x = ""
    · have hb : (pyStrip x != "") = false := by simp [hx]
      simp [drainLoop, List.filter_cons, hx, hb, ih]
    · have hb : (pyStrip x != "") = true := by simp [hx]
      cases c with
      | none => simp [drainLoop, List.filter_cons, hx, hb, ih]
      | some c0 => simp [drainLoop, List.filter_cons, hx, hb, ih]

/-- C1: drained in one `read_latest_serial_data` call, a backlog of decoded
lines yields as candidate the (stripped) last line whose stripped text is
non-empty, and a discard count of one less than the number of such lines;
lines that strip to the empty string are skipped and contribute to neither.
In particular, for `N ≥ 1` non-empty lines the candidate is the `N`-th
(last) line and the discard count is `N - 1`. -/
theorem selectLatest_last_and_count (M : List String) :
    read_latest_drain (M.map some) =
      ((M.filter fun l => pyStrip l != "").getLast?.map pyStrip,
        (M.filter fun l => pyStrip l != "").length - 1) := by
  rw [read_latest_drain, drainLoop_filter M none 0]
  rcases hL : M.filter fun l => pyStrip l != "" with _ | ⟨x, rest⟩
  · rfl
  · have hall : ∀ l ∈ x :: rest, pyStrip l ≠ "" := by
      intro l hl
      have hmem : l ∈ M.filter fun l => pyStrip l != "" := by rw [hL]; exact hl
      have := List.of_mem_filter hmem
      simpa using this
    rw [drainLoop_none_acc _ hall (List.cons_ne_nil x rest) 0]
    simp

/-- C2 (the code violates the claim): on the malformed packet
`"1.0,abc,2.0"` the parse fails (returns `False`) and `last_data_time`,
`rotX` and `rotZ` keep their old values, but `rotY` has already been
overwritten with `1.0` before the conversion of the second field raised —
the claim's "rotX, rotY, rotZ all unchanged" does not hold. -/
theorem parse_error_mutates_state :
    (processLatest st_zero 5 "1.0,abc,2.0").2 = false ∧
    (processLatest st_zero 5 "1.0,abc,2.0").1.rotY = 1 ∧
    st_zero.rotY = 0 ∧ (1 : ℚ) ≠ 0 ∧
    (processLatest st_zero 5 "1.0,abc,2.0").1.rotX = st_zero.rotX ∧
    (processLatest st_zero 5 "1.0,abc,2.0").1.rotZ = st_zero.rotZ ∧
    (processLatest st_zero 5 "1.0,abc,2.0").1.last_data_time = st_zero.last_data_time := by
  have h := processLatest_1abc2 st_zero 5
  rw [h]
  norm_num [st_zero]

/-! ## The flush drain loop and its bound -/

theorem clear_drain_le (p : List (Option String)) :
    ∀ c : Nat, c ≤ 50 → (clear_drain p c).2 ≤ 51 := by
  induction p with
  | nil => intro c hc; simpa [clear_drain] using hc.trans (by norm_num)
  | cons x rest ih =>
    intro c hc
    simp only [clear_drain]
    by_cases h : c + 1 > 50
    · simp only [if_pos h]
      omega
    · simp only [if_neg h]
      exact ih (c + 1) (by omega)

/-- C3 amended: one `clear_serial_buffer` call discards at most 51 lines —
the loop increments before testing `discarded_count > 50`, so the 51st read
happens and only then the loop breaks; it terminates after at most 51
iterations (the function is total). -/
theorem flush_discard_bound (resetEffective : Bool) (ch : Channel) :
    (clear_serial_buffer_m resetEffective ch).2 ≤ 51 := by
  simp only [clear_serial_buffer_m]
  exact clear_drain_le _ 0 (by norm_num)

/-- C3 counterexample: with a backlog of 1000 pending lines surviving the
reset, `clear_serial_buffer` discards exactly 51 lines, not at most 50. -/
theorem flush_discards_51_on_1000_backlog :
    (clear_serial_buffer_m false
        { timeout := 1 / 100, pending := List.replicate 1000 (some "9.0,9.0,9.0") }).2 = 51 ∧
    ¬ ((clear_serial_buffer_m false
        { timeout := 1 / 100, pending := List.replicate 1000 (some "9.0,9.0,9.0") }).2 ≤ 50) := by
  constructor
  · decide
  · decide

/-! ## Freshness classification -/

/-- C4 counterexample: with no sample ever accepted (`last_data_time = 0`,
its initial value) the title logic takes `data_age = 0` and shows LIVE, not
OLD as the claim states. -/
theorem classify_no_sample_live :
    classify 100 0 = Freshness.LIVE ∧ Freshness.LIVE ≠ Freshness.OLD := by
  constructor
  · unfold classify data_age
    norm_num
  · decide

/-- C4 amended: once a sample has been accepted (`last_data_time > 0`) the
classification is LIVE exactly when `now - last < 0.5`, STALE exactly when
`0.5 ≤ now - last < 2`, and OLD exactly when `2 ≤ now - last`; when no
sample has ever been accepted (`last_data_time ≤ 0`, in particular the
initial 0) the classification is LIVE, not OLD. -/
theorem classify_thresholds (now last : ℚ) :
    (0 < last →
      ((classify now last = Freshness.LIVE ↔ now - last < 1 / 2) ∧
       (classify now last = Freshness.STALE ↔ 1 / 2 ≤ now - last ∧ now - last < 2) ∧
       (classify now last = Freshness.OLD ↔ 2 ≤ now - last))) ∧
    (last ≤ 0 → classify now last = Freshness.LIVE) := by
  unfold classify data_age
  constructor
  · intro hl
    rw [if_pos hl]
    split_ifs with h1 h2
    · exact ⟨⟨fun _ => h1, fun _ => rfl⟩,
        ⟨fun hh => absurd hh (by decide), fun hh => absurd h1 (not_lt.mpr hh.1)⟩,
        ⟨fun hh => absurd hh (by decide), fun hh => absurd h1 (not_lt.mpr (by linarith))⟩⟩
    · exact ⟨⟨fun hh => absurd hh (by decide), fun hh => absurd hh h1⟩,
        ⟨fun _ => ⟨not_lt.mp h1, h2⟩, fun _ => rfl⟩,
        ⟨fun hh => absurd hh (by decide), fun hh => absurd h2 (not_lt.mpr hh)⟩⟩
    · exact ⟨⟨fun hh => absurd hh (by decide), fun hh => absurd hh h1⟩,
        ⟨fun hh => absurd hh (by decide), fun hh => absurd hh.2 h2⟩,
        ⟨fun _ => not_lt.mp h2, fun _ => rfl⟩⟩
  · intro hl
    rw [if_neg (not_lt.mpr hl)]
    norm_num

/-- C5: the channel delivers `"1.0,2.0,3.0"` then `"4.0,5.0,6.0"` with no
intervening read; one drain keeps `"4.0,5.0,6.0"` with a discard count of 1,
and parsing it succeeds with pitch 4.0 (first field), roll 5.0 (second),
yaw 6.0 (third), stamping the acceptance time. -/
theorem scenario_two_lines (st : SysState) (now : ℚ) :
    read_latest_drain [some "1.0,2.0,3.0", some "4.0,5.0,6.0"] =
      (some "4.0,5.0,6.0", 1) ∧
    (processLatest st now "4.0,5.0,6.0").2 = true ∧
    pitch (processLatest st now "4.0,5.0,6.0").1 = 4 ∧
    roll (processLatest st now "4.0,5.0,6.0").1 = 5 ∧
    yaw (processLatest st now "4.0,5.0,6.0").1 = 6 ∧
    (processLatest st now "4.0,5.0,6.0").1.last_data_time = now := by
  have h := processLatest_456 st now
  rw [h]
  refine ⟨by decide, rfl, rfl, rfl, rfl, rfl⟩

/-! ## The governance check -/

/-- C6 counterexample: two `maybeGovern` calls 0.02 s apart (less than
`clearInterval = 0.05`), with the last check 0 s old: the first call
(`t1 = 0.04`) skips the threshold check, and the second (`t2 = 0.06`) runs
it and triggers a flush at 200 pending bytes — the second call is not a
no-op. -/
theorem maybeGovern_second_not_noop :
    (3 / 50 : ℚ) - 1 / 25 < buffer_clear_interval ∧
    maybeGovern 0 (1 / 25) 200 = (0, false, false) ∧
    maybeGovern (maybeGovern 0 (1 / 25) 200).1 (3 / 50) 200 = (3 / 50, true, true) := by
  have h1 : maybeGovern 0 (1 / 25) 200 = (0, false, false) := by
    unfold maybeGovern
    rw [if_neg (by norm_num [buffer_clear_interval])]
  refine ⟨by norm_num [buffer_clear_interval], h1, ?_⟩
  rw [h1]
  unfold maybeGovern
  rw [if_pos (by norm_num [buffer_clear_interval])]
  norm_num [max_buffer_size]

/-- C6 amended: for two `maybeGovern` calls less than `clearInterval`
apart, the flush-threshold check runs in at most one of them; when the
first call runs the check, the second is a no-op regardless of its pending
byte count; and `last_buffer_clear` never decreases across either call. -/
theorem maybeGovern_pair (last0 t1 t2 : ℚ) (p1 p2 : Nat)
    (h12 : t1 ≤ t2) (hgap : t2 - t1 < buffer_clear_interval) :
    (¬ ((maybeGovern last0 t1 p1).2.1 = true ∧
        (maybeGovern (maybeGovern last0 t1 p1).1 t2 p2).2.1 = true)) ∧
    ((maybeGovern last0 t1 p1).2.1 = true →
      maybeGovern (maybeGovern last0 t1 p1).1 t2 p2 =
        ((maybeGovern last0 t1 p1).1, false, false)) ∧
    last0 ≤ (maybeGovern last0 t1 p1).1 ∧
    (maybeGovern last0 t1 p1).1 ≤ (maybeGovern (maybeGovern last0 t1 p1).1 t2 p2).1 := by
  have hpos : (0 : ℚ) < buffer_clear_interval := by norm_num [buffer_clear_interval]
  unfold maybeGovern
  by_cases h1 : t1 - last0 > buffer_clear_interval
  · rw [if_pos h1]
    have h2 : ¬ (t2 - t1 > buffer_clear_interval) := not_lt.mpr (le_of_lt hgap)
    rw [if_neg h2]
    exact ⟨fun hc => by simp at hc, fun _ => rfl, le_of_lt (by linarith), le_rfl⟩
  · rw [if_neg h1]
    by_cases h2 : t2 - last0 > buffer_clear_interval
    · rw [if_pos h2]
      exact ⟨fun hc => by simp at hc, fun hc => by simp at hc, le_rfl,
        le_of_lt (by linarith)⟩
    · rw [if_neg h2]
      exact ⟨fun hc => by simp at hc, fun hc => by simp at hc, le_rfl, le_rfl⟩

/-- C6 witness: two calls at the same time `t = 0.1` (gap `0 < 0.05`) from
`last_buffer_clear = 0`; the first runs the check, so the second is a
no-op. -/
theorem maybeGovern_pair_witness :
    maybeGovern (maybeGovern 0 (1 / 10) 0).1 (1 / 10) 0 =
      ((maybeGovern 0 (1 / 10) 0).1, false, false) :=
  (maybeGovern_pair 0 (1 / 10) (1 / 10) 0 0 le_rfl
      (by norm_num [buffer_clear_interval])).2.1
    (by unfold maybeGovern; rw [if_pos (by norm_num [buffer_clear_interval])])

/-! ## Live mode never falls back to the demo signal -/

theorem processLatest_frame (st : SysState) (t : ℚ) (l : String) :
    (processLatest st t l).1.demo_mode = st.demo_mode ∧
    (processLatest st t l).1.serial_connected = st.serial_connected ∧
    (processLatest st t l).1.serial_port = st.serial_port ∧
    (processLatest st t l).1.demo_time = st.demo_time ∧
    (processLatest st t l).1.last_buffer_clear = st.last_buffer_clear := by
  unfold processLatest
  by_cases hlen : (pySplitComma l).length ≥ 3
  · rw [if_pos hlen]
    rcases h0 : parseFloatQ ((pySplitComma l).getD 0 "") with _ | v0
    · simp
    · rcases h1 : parseFloatQ ((pySplitComma l).getD 1 "") with _ | v1
      · simp
      · rcases h2 : parseFloatQ ((pySplitComma l).getD 2 "") with _ | v2
        · simp
        · simp
  · rw [if_neg hlen]
    simp

/-- C7: in live mode (connected, demo off) a tick never turns demo mode on
or drops the connection flag — the mode changes only through the manual
toggle — and when the drain yields no candidate (channel empty, an
immediate read timeout, or a read error before any line decoded) the tick
leaves the orientation and the acceptance timestamp untouched. -/
theorem live_mode_no_fallback (sig : ℚ → ℚ × ℚ × ℚ) (st : SysState) (now : ℚ)
    (pending : List (Option String))
    (hdemo : st.demo_mode = false) (hconn : st.serial_connected = true) :
    ((update_plot_m sig st now pending).demo_mode = false ∧
     (update_plot_m sig st now pending).serial_connected = true) ∧
    ((read_latest_drain pending).1 = none →
      (update_plot_m sig st now pending).rotX = st.rotX ∧
      (update_plot_m sig st now pending).rotY = st.rotY ∧
      (update_plot_m sig st now pending).rotZ = st.rotZ ∧
      (update_plot_m sig st now pending).last_data_time = st.last_data_time) := by
  have hlive : update_plot_m sig st now pending =
      (read_latest_serial_data_m st now pending).1 := by
    unfold update_plot_m
    rw [hconn, hdemo]
    simp
  rw [hlive]
  unfold read_latest_serial_data_m
  by_cases hport : st.serial_port = false
  · rw [if_pos (Or.inr hport)]
    exact ⟨⟨hdemo, hconn⟩, fun _ => ⟨rfl, rfl, rfl, rfl⟩⟩
  · rw [if_neg (by simp [hconn, hport])]
    simp only []
    set st1 : SysState :=
      { st with last_buffer_clear :=
          (maybeGovern st.last_buffer_clear now (in_waiting pending)).1 } with hst1
    by_cases hflush : (maybeGovern st.last_buffer_clear now (in_waiting pending)).2.2
    · rw [if_pos hflush]
      exact ⟨⟨hdemo, hconn⟩, fun _ => ⟨rfl, rfl, rfl, rfl⟩⟩
    · rw [if_neg hflush]
      rcases hdrain : (read_latest_drain pending).1 with _ | line
      · exact ⟨⟨hdemo, hconn⟩, fun _ => ⟨rfl, rfl, rfl, rfl⟩⟩
      · have hf := processLatest_frame st1 now line
        refine ⟨⟨by rw [hf.1]; exact hdemo, by rw [hf.2.1]; exact hconn⟩, ?_⟩
        intro hnone
        exact absurd hnone (by simp)

/-- C7 witness: one live-mode tick on an empty channel from the fresh
connected state leaves mode and orientation untouched. -/
theorem live_mode_no_fallback_witness :
    ((update_plot_m (fun _ => (0, 0, 0)) st_live 1 []).demo_mode = false ∧
     (update_plot_m (fun _ => (0, 0, 0)) st_live 1 []).serial_connected = true) ∧
    (update_plot_m (fun _ => (0, 0, 0)) st_live 1 []).rotX = st_live.rotX ∧
    (update_plot_m (fun _ => (0, 0, 0)) st_live 1 []).rotY = st_live.rotY ∧
    (update_plot_m (fun _ => (0, 0, 0)) st_live 1 []).rotZ = st_live.rotZ ∧
    (update_plot_m (fun _ => (0, 0, 0)) st_live 1 []).last_data_time = st_live.last_data_time :=
  have h := live_mode_no_fallback (fun _ => (0, 0, 0)) st_live 1 [] rfl rfl
  ⟨h.1, h.2 rfl⟩

/-! ## Failed open falls back to the simulated path -/

theorem update_demo_frame (sig : ℚ → ℚ × ℚ × ℚ) (st : SysState) :
    (update_demo_m sig st).demo_mode = st.demo_mode ∧
    (update_demo_m sig st).serial_connected = st.serial_connected := by
  constructor <;> rfl

theorem run_ticks_not_connected (sig : ℚ → ℚ × ℚ × ℚ) :
    ∀ (inputs : List (ℚ × List (Option String))) (st : SysState),
      st.serial_connected = false →
      run_ticks sig st inputs = run_demo sig st inputs.length := by
  intro inputs
  induction inputs with
  | nil => intro st _; rfl
  | cons tick rest ih =>
    intro st h
    have hstep : update_plot_m sig st tick.1 tick.2 = update_demo_m sig st := by
      unfold update_plot_m
      rw [h]
      simp
    rw [run_ticks, hstep, List.length_cons, run_demo]
    exact ih (update_demo_m sig st) ((update_demo_frame sig st).2.trans h)

/-- C8: when opening the channel fails at construction, `init_serial` (whose
model is total: the exception is consumed inside it) leaves the state in
simulated mode — `demo_mode` on, not connected — and every subsequent tick,
whatever times and backlogs arrive, follows the demo path
(`update_demo_m`), never the live-read path. -/
theorem open_failure_goes_simulated (st0 : SysState) (sig : ℚ → ℚ × ℚ × ℚ)
    (inputs : List (ℚ × List (Option String))) :
    (init_serial_m st0 false).demo_mode = true ∧
    (init_serial_m st0 false).serial_connected = false ∧
    run_ticks sig (init_serial_m st0 false) inputs =
      run_demo sig (init_serial_m st0 false) inputs.length := by
  refine ⟨rfl, rfl, ?_⟩
  exact run_ticks_not_connected sig inputs (init_serial_m st0 false) rfl

/-! ## The manual flush key -/

/-- C9 counterexample: in simulated (demo) mode with an open port, the `b`
key does invoke `clear_serial_buffer` — the guard of line 363 tests the
port, not the mode, so the manual flush is not a no-op in Simulated. -/
theorem manual_flush_runs_in_demo_mode :
    st_demo_with_port.demo_mode = true ∧
    (on_key_press_m st_demo_with_port Key.b).2 = true :=
  ⟨rfl, rfl⟩

/-- C9 amended: the manual flush key invokes the channel flush exactly when
a port object exists, regardless of mode; it never mutates the process
state, and no other key invokes the flush. -/
theorem manual_flush_guard (st : SysState) (k : Key) :
    ((on_key_press_m st k).2 = true ↔ (k = Key.b ∧ st.serial_port = true)) ∧
    (on_key_press_m st Key.b).1 = st := by
  constructor
  · cases k <;> simp [on_key_press_m]
  · rfl

/-- C10: `clear_serial_buffer` always restores the channel's read timeout
to its pre-call value after the drain loop — the temporary 0.001 s drain
timeout never survives a completed call, whether or not the transport's
reset was effective. -/
theorem flush_restores_timeout (resetEffective : Bool) (ch : Channel) :
    ((clear_serial_buffer_m resetEffective ch).1).timeout = ch.timeout := by
  rfl

end OrientationMPU
